import Mathlib

/-!
A shallow embedding of the categorical bar-plot module `bokehBorn/categorical.py`.

Numeric scalars are modelled as exact rationals (`ℚ`); the floating-point
`NaN` missing sentinel is the dedicated constructor `Cell.na`; non-numeric
string values are `Cell.str`.  A pandas `Series` is a list of cells together
with an optional name and a categorical-dtype flag.  Fallible code paths
return `Except PlotError`, one error constructor per distinct `raise` site
(plus the builtin pandas/numpy exceptions `KeyError` / `IndexError` /
`AttributeError` that the module lets escape).

The helpers `categorical_order` and `remove_na` are imported by the module
from `bokehBorn.utils`, whose source is not part of the repository snapshot;
they are modelled from the spec where marked.  The bootstrap confidence
interval pipeline (`bokehBorn.algorithms.bootstrap` composed with
`utils.ci`), also absent from the snapshot and RNG-dependent, is abstracted
as an explicit function parameter `bootci`.
-/

/-- A scalar datum: a finite float (as `ℚ`), the float `NaN`, or a string. -/
inductive Cell where
  | num (q : ℚ)
  | na
  | str (s : String)
deriving DecidableEq

/-- `pd.isnull` on one cell. -/
def Cell.isNa : Cell → Bool
  | Cell.na => true
  | _ => false

/-- Whether a cell is a bare string (fails `np.float` coercion). -/
def Cell.isStr : Cell → Bool
  | Cell.str _ => true
  | _ => false

/-- A pandas `Series`: an optional name, a categorical-dtype flag and the
values. -/
structure Series where
  name : Option String
  isCat : Bool
  vals : List Cell
deriving DecidableEq

/-- One of the `x`/`y`/`hue`/`units` arguments: `None`, a bare string
(a would-be column name), or a vector of data. -/
inductive Var where
  | none
  | str (s : String)
  | ser (s : Series)
deriving DecidableEq

/-- Whether a `Var` is still a bare string. -/
def Var.isStr : Var → Bool
  | Var.str _ => true
  | _ => false

/-- The `data` argument: `None`, a `DataFrame` (association list of named
columns plus the `columns.name` attribute), a 1-D or 2-D `ndarray`, an
`ndarray` of dimension above two, a flat list of scalars, or a nested list. -/
inductive Data where
  | dnone
  | frame (cols : List (String × Series)) (columnsName : Option String)
  | arr1 (xs : List Cell)
  | arr2 (rows : List (List Cell))
  | arrN
  | flat (xs : List Cell)
  | nested (xss : List (List Cell))
deriving DecidableEq

/-- The exceptions `establish_variables` / `infer_orient` can raise, one
constructor per `raise` site or escaping library exception. -/
inductive PlotError where
  | hueWithoutXY
  | reorderNeedsPandas
  | tooManyDims
  | couldNotInterpret (s : String)
  | noNumeric
  | keyError
  | indexError
  | attributeError
  | castError
deriving DecidableEq

/-- Modelled from the spec: `utils.remove_na` filters the missing values out
of a vector ("Filter out missing values"). -/
def remove_na (xs : List Cell) : List Cell :=
  xs.filter (fun c => !c.isNa)

/-- First-seen-order deduplication (the order `pd.unique` reports). -/
def uniqueAux (seen : List Cell) : List Cell → List Cell
  | [] => []
  | c :: rest =>
    if c ∈ seen then uniqueAux seen rest else c :: uniqueAux (c :: seen) rest

/-- Modelled from the spec: `utils.categorical_order` — "group order comes
from the unique values of `groups` (explicit `order` wins, else first-seen
order)".  Null keys are filtered out of the inferred order; a categorical
dtype's stored category order is modelled as first-seen order. -/
def categorical_order (vals : List Cell) (order : Option (List Cell)) : List Cell :=
  match order with
  | some o => o
  | Option.none => uniqueAux [] (vals.filter (fun c => !c.isNa))

/-- The rows of `vals` whose `grouper` key equals `g`, in original order
(`grouped_vals.get_group(g)` of lines 248-252). -/
def matchRows (vals grouper : List Cell) (g : Cell) : List Cell :=
  (vals.zip grouper).filterMap (fun p => if p.2 = g then some p.1 else none)

/-- `_CategoricalPlotter._group_longform` (lines 241-260): group `vals` by
`grouper` and emit one sub-vector per entry of `order`, with a missing group
(`KeyError`, including the null key that `groupby` drops) yielding an empty
vector; the label is the `vals` series name. -/
def group_longform (vals grouper : List Cell) (order : List Cell)
    (valsName : Option String) : List (List Cell) × Option String :=
  (order.map (fun g => if g = Cell.na then [] else matchRows vals grouper g),
   valsName)

/-- `str(orient)` of line 266 / line 135. -/
def strOfOrient : Option String → String
  | Option.none => "None"
  | some s => s

/-- The local `is_categorical` of `infer_orient` (lines 268-277): a
categorical pandas dtype. -/
def is_categorical (s : Series) : Bool := s.isCat

/-- The local `is_not_numeric` of `infer_orient` (lines 279-284):
`np.asarray(s, np.float)` raises exactly when a bare string value is
present. -/
def is_not_numeric (s : Series) : Bool := s.vals.any Cell.isStr

/-- `_CategoricalPlotter.infer_orient` (lines 264-307).  A single-character
front test models `str.startswith` for the `"v"`/`"h"` prefixes. -/
def infer_orient (x y : Option Series) (orient : Option String) :
    Except PlotError String :=
  let o := strOfOrient orient
  if o.front = 'v' then Except.ok "v"
  else if o.front = 'h' then Except.ok "h"
  else
    match x, y with
    | Option.none, _ => Except.ok "v"
    | some _, Option.none => Except.ok "h"
    | some xs, some ys =>
      if is_categorical ys then
        if is_categorical xs then Except.error PlotError.noNumeric
        else Except.ok "h"
      else if is_not_numeric ys then
        if is_not_numeric xs then Except.error PlotError.noNumeric
        else Except.ok "h"
      else Except.ok "v"

/-- `data[col]` column lookup; pandas hands the column out under its own
name. -/
def lookupCol (cols : List (String × Series)) (k : String) : Option Series :=
  (cols.find? (fun p => p.1 == k)).map (fun p => { p.2 with name := some p.1 })

/-- `data.get(v, v)` of lines 145-148: a string argument is replaced by the
column it names when the lookup succeeds, anything else is returned
unchanged. -/
def resolveVar (cols : List (String × Series)) : Var → Var
  | Var.str s =>
    match lookupCol cols s with
    | some c => Var.ser c
    | Option.none => Var.str s
  | v => v

/-- Lines 144-148 for all four variables at once.  `data.get` exists only on
a `DataFrame`; with a non-null non-frame `data` the attribute access raises
`AttributeError`. -/
def resolveStep (data : Data) (x y hue units : Var) :
    Except PlotError (Var × Var × Var × Var) :=
  match data with
  | Data.dnone => Except.ok (x, y, hue, units)
  | Data.frame cols _ =>
    Except.ok (resolveVar cols x, resolveVar cols y, resolveVar cols hue,
               resolveVar cols units)
  | _ => Except.error PlotError.attributeError

/-- The validation loop of lines 150-154: the first input that is still a
bare string. -/
def firstStringVar : List Var → Option String
  | [] => Option.none
  | Var.str s :: _ => some s
  | _ :: rest => firstStringVar rest

/-- View a resolved `Var` as an optional series. -/
def varSeries : Var → Option Series
  | Var.ser s => some s
  | _ => Option.none

/-- Whether every value of a vector survives `np.float` coercion. -/
def castable (xs : List Cell) : Bool := !(xs.any Cell.isStr)

/-- `np.asarray(d, np.float)`: the identity on a castable vector (`ℚ` cells
and `NaN` already are floats), `ValueError` otherwise. -/
def asFloatVec (xs : List Cell) : Except PlotError (List Cell) :=
  if castable xs then Except.ok xs else Except.error PlotError.castError

/-- The `np.float` conversion applied to every group vector
(line 83 / line 129). -/
def castAll : List (List Cell) → Except PlotError (List (List Cell))
  | [] => Except.ok []
  | v :: rest =>
    match asFloatVec v with
    | Except.error e => Except.error e
    | Except.ok w =>
      match castAll rest with
      | Except.error e => Except.error e
      | Except.ok l => Except.ok (w :: l)

/-- `plot_data = data[order]` of line 77: select the named columns, a
missing or non-string label raising `KeyError`. -/
def selectCols (cols : List (String × Series)) : List Cell →
    Except PlotError (List (List Cell))
  | [] => Except.ok []
  | Cell.str nm :: rest =>
    match lookupCol cols nm with
    | some s =>
      match selectCols cols rest with
      | Except.error e => Except.error e
      | Except.ok l => Except.ok (s.vals :: l)
    | Option.none => Except.error PlotError.keyError
  | _ :: _ => Except.error PlotError.keyError

/-- The raw group vectors of wide-form non-frame data (lines 96-126):
1-D input and flat lists become a single group (an empty one raises
`IndexError` through `data[0]`), a 2-D array becomes one group per column
unless one dimension has size one, `data=None` becomes a single empty
group, and higher dimensions are rejected. -/
def wideArrayData : Data → Except PlotError (List (List Cell))
  | Data.dnone => Except.ok [[]]
  | Data.arr1 xs =>
    if xs = [] then Except.error PlotError.indexError else Except.ok [xs]
  | Data.flat xs =>
    if xs = [] then Except.error PlotError.indexError else Except.ok [xs]
  | Data.nested xss =>
    if xss = [] then Except.error PlotError.indexError else Except.ok xss
  | Data.arr2 rows =>
    let nr := rows.length
    let nc := (rows.head?.map List.length).getD 0
    if nr = 1 ∨ nc = 1 then Except.ok [rows.flatten]
    else Except.ok ((List.range nc).map (fun i => rows.filterMap (fun r => r.get? i)))
  | Data.arrN => Except.error PlotError.tooManyDims
  | Data.frame _ _ => Except.ok []

/-- The statistic vector `self.statistic` (line 497): a flat vector without
hue nesting, a `[group][hue]` matrix with it; a missing (`NaN`) estimate is
`Option.none`. -/
inductive StatResult where
  | flat (xs : List (Option ℝ))
  | nested (xss : List (List (Option ℝ)))

/-- The confidence intervals `self.confint` (line 498); a `(NaN, NaN)`
placeholder pair is `Option.none`. -/
inductive ConfResult where
  | flat (xs : List (Option (ℝ × ℝ)))
  | nested (xss : List (List (Option (ℝ × ℝ))))

/-- The `ci` argument: `None`, the literal `"sd"` policy, or a confidence
level. -/
inductive CI where
  | none
  | sd
  | level (c : ℚ)
deriving DecidableEq

/-- The attributes a `_CategoricalStatPlotter` instance carries: the nine
fields assigned by `establish_variables` (lines 229-239) and the two
assigned later by `estimate_statistic` (lines 497-498), unset (`Option.none`)
until then. -/
structure Plotter where
  orient : String
  plot_data : List (List Cell)
  group_label : Option String
  value_label : Option String
  group_names : List Cell
  plot_hues : Option (List (List Cell))
  hue_title : Option String
  hue_names : Option (List Cell)
  plot_units : Option (List (List Cell))
  statistic : Option StatResult
  confint : Option ConfResult

/-- Option 2a (lines 162-183): a single ungrouped vector. -/
def singleVarSpec (orient' : String) (vals : Series) : Plotter :=
  { orient := orient', plot_data := [vals.vals], group_label := Option.none,
    value_label := vals.name, group_names := [], plot_hues := Option.none,
    hue_title := Option.none, hue_names := Option.none,
    plot_units := Option.none, statistic := Option.none,
    confint := Option.none }

/-- Option 2b (lines 188-227): split the two variables into values and
groups by orientation, order the groups, and partition values, hue and
units alike by the group key. -/
def groupedSpec (orient' : String) (sx sy : Series) (rh ru : Var)
    (order hue_order : Option (List Cell)) : Plotter :=
  let vals := if orient' = "v" then sy else sx
  let groups := if orient' = "v" then sx else sy
  let gn := categorical_order groups.vals order
  let pdvl := group_longform vals.vals groups.vals gn vals.name
  let hueTriple : Option (List (List Cell)) × Option String × Option (List Cell) :=
    match rh with
    | Var.ser sh =>
      let phht := group_longform sh.vals groups.vals gn sh.name
      (some phht.1, phht.2, some (categorical_order sh.vals hue_order))
    | _ => (Option.none, Option.none, Option.none)
  let pu : Option (List (List Cell)) :=
    match ru with
    | Var.ser su => some (group_longform su.vals groups.vals gn su.name).1
    | _ => Option.none
  { orient := orient', plot_data := pdvl.1, group_label := groups.name,
    value_label := pdvl.2, group_names := gn, plot_hues := hueTriple.1,
    hue_title := hueTriple.2.1, hue_names := hueTriple.2.2, plot_units := pu,
    statistic := Option.none, confint := Option.none }

/-- Lines 150-227: the long-form branch after the `data.get` resolution of
the four variables. -/
def longFormResolved (rx ry rh ru : Var) (orient : Option String)
    (order hue_order : Option (List Cell)) : Except PlotError Plotter :=
  match firstStringVar [rx, ry, rh, ru] with
  | some s => Except.error (PlotError.couldNotInterpret s)
  | Option.none =>
    match infer_orient (varSeries rx) (varSeries ry) orient with
    | Except.error e => Except.error e
    | Except.ok orient' =>
      if rx = Var.none ∨ ry = Var.none then
        match varSeries (if rx = Var.none then ry else rx) with
        | some vals => Except.ok (singleVarSpec orient' vals)
        | Option.none => Except.error PlotError.keyError
      else
        match varSeries rx, varSeries ry with
        | some sx, some sy =>
          Except.ok (groupedSpec orient' sx sy rh ru order hue_order)
        | _, _ => Except.error PlotError.keyError

/-- Option 2 (lines 141-227): the long-form branch of
`establish_variables`. -/
def longForm (x y hue units : Var) (data : Data) (orient : Option String)
    (order hue_order : Option (List Cell)) : Except PlotError Plotter :=
  match resolveStep data x y hue units with
  | Except.error e => Except.error e
  | Except.ok (rx, ry, rh, ru) =>
    longFormResolved rx ry rh ru orient order hue_order

/-- Unfolding `longForm` when the resolution step is known. -/
theorem longForm_resolved (x y hue units : Var) (data : Data)
    (orient : Option String) (order hue_order : Option (List Cell))
    (rx ry rh ru : Var)
    (h : resolveStep data x y hue units = Except.ok (rx, ry, rh, ru)) :
    longForm x y hue units data orient order hue_order
      = longFormResolved rx ry rh ru orient order hue_order := by
  rw [longForm, h]

/-- Lines 68-76: the wide-form frame column order — the caller's `order`,
or every numeric-castable column in table order. -/
def wideOrd (cols : List (String × Series)) (order : Option (List Cell)) :
    List Cell :=
  match order with
  | Option.none =>
    (cols.filter (fun p => castable p.2.vals)).map (fun p => Cell.str p.1)
  | some o => o

/-- Lines 77-83: select the ordered columns of a wide-form frame and coerce
each to floats. -/
def wideFrame (cols : List (String × Series)) (cname : Option String)
    (orient : Option String) (ord : List Cell) : Except PlotError Plotter :=
  match selectCols cols ord with
  | Except.error e => Except.error e
  | Except.ok vecs =>
    match castAll vecs with
    | Except.error e => Except.error e
    | Except.ok pds =>
      Except.ok { orient := if (strOfOrient orient).front = 'h' then "h" else "v",
                  plot_data := pds, group_label := cname,
                  value_label := Option.none, group_names := ord,
                  plot_hues := Option.none, hue_title := Option.none,
                  hue_names := Option.none, plot_units := Option.none,
                  statistic := Option.none, confint := Option.none }

/-- Lines 89-132: the wide-form non-frame branch (arrays, lists, `None`). -/
def wideArrays (data : Data) (orient : Option String)
    (order : Option (List Cell)) : Except PlotError Plotter :=
  if order ≠ Option.none then Except.error PlotError.reorderNeedsPandas
  else
    match wideArrayData data with
    | Except.error e => Except.error e
    | Except.ok raw =>
      match castAll raw with
      | Except.error e => Except.error e
      | Except.ok pds =>
        Except.ok { orient := if (strOfOrient orient).front = 'h' then "h" else "v",
                    plot_data := pds,
                    group_label := Option.none, value_label := Option.none,
                    group_names := (List.range pds.length).map
                      (fun i => Cell.num i),
                    plot_hues := Option.none, hue_title := Option.none,
                    hue_names := Option.none, plot_units := Option.none,
                    statistic := Option.none, confint := Option.none }

/-- Option 1 (lines 42-135): the wide-form branch of
`establish_variables`. -/
def wideForm (hue : Var) (data : Data) (orient : Option String)
    (order : Option (List Cell)) : Except PlotError Plotter :=
  if hue ≠ Var.none then Except.error PlotError.hueWithoutXY
  else
    match data with
    | Data.frame cols cname => wideFrame cols cname orient (wideOrd cols order)
    | _ => wideArrays data orient order

/-- `_CategoricalPlotter.establish_variables` (lines 35-239). -/
def establish_variables (x y hue : Var) (data : Data) (orient : Option String)
    (order hue_order : Option (List Cell)) (units : Var) :
    Except PlotError Plotter :=
  if x = Var.none ∧ y = Var.none then wideForm hue data orient order
  else longForm x y hue units data orient order hue_order

/-- The mean of a numeric cell vector, as a rational (`np.mean`). -/
def npMeanQ (xs : List Cell) : ℚ :=
  (xs.map (fun c => match c with | Cell.num q => q | _ => 0)).sum / xs.length

/-- The population variance (`ddof = 0`) of a numeric cell vector: the mean
squared deviation, which is what `np.std` squares to by default. -/
def popVarQ (xs : List Cell) : ℚ :=
  (xs.map (fun c =>
    (match c with | Cell.num q => q | _ => 0) - npMeanQ xs)).foldr
      (fun d acc => d * d + acc) 0 / xs.length

/-- `np.std` with its default `ddof = 0`: the square root of the population
variance. -/
noncomputable def npStd (xs : List Cell) : ℝ := Real.sqrt ((popVarQ xs : ℚ) : ℝ)

/-- The sample variance (`ddof = 1`) of a numeric cell vector.  This is the
quantity the spec's words "sampleStdDev" denote; the code does not compute
it. -/
def sampleVarQ (xs : List Cell) : ℚ :=
  (xs.map (fun c =>
    (match c with | Cell.num q => q | _ => 0) - npMeanQ xs)).foldr
      (fun d acc => d * d + acc) 0 / ((xs.length : ℚ) - 1)

/-- The sample standard deviation (`ddof = 1`), per the claim's words. -/
noncomputable def sampleStd (xs : List Cell) : ℝ :=
  Real.sqrt ((sampleVarQ xs : ℚ) : ℝ)

/-- `np.mean` as an `ℝ`-valued estimator on cell vectors. -/
noncomputable def npMean (xs : List Cell) : ℝ := ((npMeanQ xs : ℚ) : ℝ)

/-- A trivial stand-in for the bootstrap pipeline, used to instantiate
theorems whose conclusion never reaches the bootstrap branch. -/
noncomputable def bootciZero : List Cell → Option (List Cell) → ℕ → ℚ → ℝ × ℝ :=
  fun _ _ _ _ => ((0 : ℝ), (0 : ℝ))

/-- Lines 411-418: the filtered statistic and unit vectors of one group
without hue nesting — `remove_na` without units, the row-wise joint
`pd.notnull` mask with them. -/
def statDataNoHue (gd : List Cell) (ud : Option (List Cell)) :
    List Cell × Option (List Cell) :=
  match ud with
  | Option.none => (remove_na gd, Option.none)
  | some u =>
    let keep := (gd.zip u).filter (fun p => !p.1.isNa && !p.2.isNa)
    (keep.map Prod.fst, some (keep.map Prod.snd))

/-- Lines 458-468: the filtered statistic and unit vectors of one
group/hue-level cell — the `plot_hues[i] == hue_level` mask (under which a
null hue never matches), `remove_na` without units, the joint `pd.notnull`
mask with them. -/
def hueStatData (gd hvec : List Cell) (ud : Option (List Cell)) (lvl : Cell) :
    List Cell × Option (List Cell) :=
  match ud with
  | Option.none =>
    (remove_na (((gd.zip hvec).filter
        (fun p => decide (p.2 = lvl) && !p.2.isNa)).map Prod.fst),
     Option.none)
  | some u =>
    let keep := ((gd.zip hvec).zip u).filter
      (fun t => (decide (t.1.2 = lvl) && !t.1.2.isNa) && (!t.1.1.isNa && !t.2.isNa))
    (keep.map (fun t => t.1.1), some (keep.map (fun t => t.2)))

/-- Lines 409-444: the statistic and confidence-interval entry of one group
without hue nesting.  The second component is only consulted when a
confidence interval was requested. -/
noncomputable def groupStatNoHue (est : List Cell → ℝ)
    (bootci : List Cell → Option (List Cell) → ℕ → ℚ → ℝ × ℝ)
    (ci : CI) (nboot : ℕ) (gd : List Cell) (ud : Option (List Cell)) :
    Option ℝ × Option (ℝ × ℝ) :=
  let sdp := statDataNoHue gd ud
  let stat : Option ℝ :=
    if sdp.1.length = 0 then Option.none else some (est sdp.1)
  let conf : Option (ℝ × ℝ) :=
    if sdp.1.length < 2 then Option.none
    else
      match ci with
      | CI.sd => some (est sdp.1 - npStd sdp.1, est sdp.1 + npStd sdp.1)
      | CI.level c => some (bootci sdp.1 sdp.2 nboot c)
      | CI.none => Option.none
  (stat, conf)

/-- Lines 450-494: the statistic and confidence-interval entry of one
group/hue-level cell, including the early `continue` on an empty per-group
hue vector. -/
noncomputable def hueCellStat (est : List Cell → ℝ)
    (bootci : List Cell → Option (List Cell) → ℕ → ℚ → ℝ × ℝ)
    (ci : CI) (nboot : ℕ) (gd hvec : List Cell) (ud : Option (List Cell))
    (lvl : Cell) : Option ℝ × Option (ℝ × ℝ) :=
  if hvec.length = 0 then (Option.none, Option.none)
  else
    let sdp := hueStatData gd hvec ud lvl
    let stat : Option ℝ :=
      if sdp.1.length = 0 then Option.none else some (est sdp.1)
    let conf : Option (ℝ × ℝ) :=
      if sdp.1.length < 2 then Option.none
      else
        match ci with
        | CI.sd => some (est sdp.1 - npStd sdp.1, est sdp.1 + npStd sdp.1)
        | CI.level c => some (bootci sdp.1 sdp.2 nboot c)
        | CI.none => Option.none
    (stat, conf)

/-- `_CategoricalStatPlotter.estimate_statistic` (lines 395-498): loop over
the groups (and hue levels within each group, when hue nesting is on),
estimate each cell, and assign the `statistic` / `confint` attributes.  The
`confint` rows stay empty when no confidence interval was requested. -/
noncomputable def estimate_statistic (est : List Cell → ℝ)
    (bootci : List Cell → Option (List Cell) → ℕ → ℚ → ℝ × ℝ)
    (ci : CI) (nboot : ℕ) (p : Plotter) : Plotter :=
  match p.plot_hues with
  | Option.none =>
    let withUnits : List (List Cell × Option (List Cell)) :=
      match p.plot_units with
      | Option.none => p.plot_data.map (fun gd => (gd, Option.none))
      | some us => (p.plot_data.zip us).map (fun q => (q.1, some q.2))
    let cells := withUnits.map (fun q => groupStatNoHue est bootci ci nboot q.1 q.2)
    { p with statistic := some (StatResult.flat (cells.map Prod.fst)),
             confint := some (ConfResult.flat
               (if ci = CI.none then [] else cells.map Prod.snd)) }
  | some hs =>
    let lvls := p.hue_names.getD []
    let trip : List (List Cell × List Cell × Option (List Cell)) :=
      match p.plot_units with
      | Option.none => (p.plot_data.zip hs).map (fun q => (q.1, q.2, Option.none))
      | some us =>
        ((p.plot_data.zip hs).zip us).map (fun q => (q.1.1, q.1.2, some q.2))
    let rows := trip.map (fun t =>
      lvls.map (fun lvl => hueCellStat est bootci ci nboot t.1 t.2.1 t.2.2 lvl))
    { p with statistic := some (StatResult.nested (rows.map (fun r => r.map Prod.fst))),
             confint := some (ConfResult.nested
               (rows.map (fun r => if ci = CI.none then [] else r.map Prod.snd))) }

/-- Claim C4's stated inference rule, translated literally: a single
"non-numeric/categorical" test on `y` guards the horizontal branch, and the
no-numeric-axis error is raised "whenever x is also non-numeric". -/
def inferOrientClaim (x y : Option Series) (orient : Option String) :
    Except PlotError String :=
  let o := strOfOrient orient
  if o.front = 'v' then Except.ok "v"
  else if o.front = 'h' then Except.ok "h"
  else
    match x, y with
    | Option.none, _ => Except.ok "v"
    | some _, Option.none => Except.ok "h"
    | some xs, some ys =>
      if is_categorical ys || is_not_numeric ys then
        if is_not_numeric xs then Except.error PlotError.noNumeric
        else Except.ok "h"
      else Except.ok "v"

/-- The amended C4 rule: the categorical-dtype test and the non-numeric test
are two separate rungs, and each rung raises only when `x` fails the same
test as `y` — a categorical `y` with a merely non-numeric `x` is horizontal,
not an error. -/
def inferOrientAmended (x y : Option Series) (orient : Option String) :
    Except PlotError String :=
  let o := strOfOrient orient
  if o.front = 'v' then Except.ok "v"
  else if o.front = 'h' then Except.ok "h"
  else
    match x, y with
    | Option.none, _ => Except.ok "v"
    | some _, Option.none => Except.ok "h"
    | some xs, some ys =>
      match is_categorical ys, is_not_numeric ys with
      | true, _ =>
        if is_categorical xs then Except.error PlotError.noNumeric
        else Except.ok "h"
      | false, true =>
        if is_not_numeric xs then Except.error PlotError.noNumeric
        else Except.ok "h"
      | false, false => Except.ok "v"

/-- Claim C4 counterexample: with `y` of categorical dtype and `x`
non-numeric but not categorical (a plain string series), the code returns
horizontal, while the claim's rule ("error whenever x is also non-numeric")
demands the no-numeric-axis error. -/
theorem c4_counterexample :
    infer_orient (some ⟨Option.none, false, [Cell.str "u"]⟩)
        (some ⟨Option.none, true, [Cell.num 1]⟩) Option.none = Except.ok "h" ∧
    inferOrientClaim (some ⟨Option.none, false, [Cell.str "u"]⟩)
        (some ⟨Option.none, true, [Cell.num 1]⟩) Option.none
      = Except.error PlotError.noNumeric :=
  ⟨rfl, rfl⟩

/-- Claim C4 (amended): long-form orientation is inferred exactly by the
two-rung ladder — explicit `"v"`/`"h"` prefix wins; else `x` absent gives
vertical; else `y` absent gives horizontal; else a categorical-dtype `y`
gives horizontal with the "neither x nor y appears numeric" error raised
exactly when `x` is also categorical-dtype; else a non-numeric `y` gives
horizontal with the error raised exactly when `x` is also non-numeric; else
vertical. -/
theorem c4_infer_orient_amended (x y : Option Series) (orient : Option String) :
    infer_orient x y orient = inferOrientAmended x y orient := by
  cases x <;> cases y <;>
    simp only [infer_orient, inferOrientAmended] <;>
    split <;> try rfl
  all_goals
    split <;> try rfl
  all_goals
    rename_i xs ys _ _
    cases hc : is_categorical ys <;> cases hn : is_not_numeric ys <;>
      simp [hc, hn]

/-- Claim C9: `estimate_statistic` only assigns the `statistic` and
`confint` attributes; every field established by the Normalizer is
unchanged on the updated plotter. -/
theorem c9_no_mutation (est : List Cell → ℝ)
    (bootci : List Cell → Option (List Cell) → ℕ → ℚ → ℝ × ℝ)
    (ci : CI) (nboot : ℕ) (p : Plotter) :
    (estimate_statistic est bootci ci nboot p).orient = p.orient ∧
    (estimate_statistic est bootci ci nboot p).plot_data = p.plot_data ∧
    (estimate_statistic est bootci ci nboot p).group_label = p.group_label ∧
    (estimate_statistic est bootci ci nboot p).value_label = p.value_label ∧
    (estimate_statistic est bootci ci nboot p).group_names = p.group_names ∧
    (estimate_statistic est bootci ci nboot p).plot_hues = p.plot_hues ∧
    (estimate_statistic est bootci ci nboot p).hue_title = p.hue_title ∧
    (estimate_statistic est bootci ci nboot p).hue_names = p.hue_names ∧
    (estimate_statistic est bootci ci nboot p).plot_units = p.plot_units := by
  cases h : p.plot_hues <;>
    simp [estimate_statistic, h]

/-- Claim C3: degenerate cells degrade to missing sentinels, never to an
exception (both per-cell functions are total).  An empty filtered vector
gives a missing statistic and a `(NaN, NaN)` interval placeholder; so does
an empty per-group hue vector (the hue-subset-with-no-matching-rows case is
the second disjunct of the second part); and any filtered vector with fewer
than two elements — in particular a single-element one, whose statistic is
still computed — gets the `(NaN, NaN)` interval placeholder (the
`size < 2` guards of lines 429-431 and 479-481), in both the plain-group
and the group/hue-cell paths. -/
theorem c3_degenerate_sentinels :
    (∀ est bootci ci nboot gd ud, (statDataNoHue gd ud).1 = [] →
      groupStatNoHue est bootci ci nboot gd ud = (Option.none, Option.none)) ∧
    (∀ est bootci ci nboot gd hvec ud lvl,
      hvec = [] ∨ (hueStatData gd hvec ud lvl).1 = [] →
      hueCellStat est bootci ci nboot gd hvec ud lvl
        = (Option.none, Option.none)) ∧
    (∀ est bootci ci nboot gd ud, (statDataNoHue gd ud).1.length < 2 →
      (groupStatNoHue est bootci ci nboot gd ud).2 = Option.none) ∧
    (∀ est bootci ci nboot gd hvec ud lvl,
      (hueStatData gd hvec ud lvl).1.length < 2 →
      (hueCellStat est bootci ci nboot gd hvec ud lvl).2 = Option.none) := by
  refine ⟨?_, ?_, ?_, ?_⟩
  · intro est bootci ci nboot gd ud h
    simp [groupStatNoHue, h]
  · intro est bootci ci nboot gd hvec ud lvl h
    rcases h with h | h
    · simp [hueCellStat, h]
    · by_cases hv : hvec.length = 0 <;> simp [hueCellStat, hv, h]
  · intro est bootci ci nboot gd ud h
    simp [groupStatNoHue, h]
  · intro est bootci ci nboot gd hvec ud lvl h
    by_cases hv : hvec.length = 0 <;> simp [hueCellStat, hv, h]

/-- Claim C3 witness: an all-missing group with a bootstrap interval
requested; a group whose hue subset for the requested level is empty; a
single-element group under the `"sd"` policy; and a group/hue cell whose
filtered subset has a single element under a bootstrap level. -/
theorem c3_witness :
    groupStatNoHue npMean bootciZero (CI.level 95) 7 [Cell.na] Option.none
        = (Option.none, Option.none) ∧
    hueCellStat npMean bootciZero CI.sd 3 [Cell.num 1] [Cell.str "a"]
        Option.none (Cell.str "b") = (Option.none, Option.none) ∧
    (groupStatNoHue npMean bootciZero CI.sd 5 [Cell.num 7] Option.none).2
        = Option.none ∧
    (hueCellStat npMean bootciZero (CI.level 95) 2 [Cell.num 7] [Cell.str "a"]
        Option.none (Cell.str "a")).2 = Option.none :=
  ⟨c3_degenerate_sentinels.1 npMean bootciZero (CI.level 95) 7 [Cell.na]
      Option.none rfl,
   c3_degenerate_sentinels.2.1 npMean bootciZero CI.sd 3 [Cell.num 1]
      [Cell.str "a"] Option.none (Cell.str "b") (Or.inr rfl),
   c3_degenerate_sentinels.2.2.1 npMean bootciZero CI.sd 5 [Cell.num 7]
      Option.none (by decide),
   c3_degenerate_sentinels.2.2.2 npMean bootciZero (CI.level 95) 2
      [Cell.num 7] [Cell.str "a"] Option.none (Cell.str "a") (by decide)⟩

/-- The worked example vector `[1, 2, 3, 4, 5]` of the claim. -/
def cells5 : List Cell :=
  [Cell.num 1, Cell.num 2, Cell.num 3, Cell.num 4, Cell.num 5]

/-- A normalized single-group plotter holding `cells5`. -/
def P5 : Plotter :=
  { orient := "v", plot_data := [cells5],
    group_label := Option.none, value_label := Option.none,
    group_names := [Cell.num 0],
    plot_hues := Option.none, hue_title := Option.none,
    hue_names := Option.none, plot_units := Option.none,
    statistic := Option.none, confint := Option.none }

/-- Claim C2 counterexample: on `[1,2,3,4,5]` with the mean estimator and
the `"sd"` policy the code produces the band `3 ± √2` — `np.std` uses the
population deviation (`ddof = 0`, variance `2`) — which is not the claimed
band `3 ± sampleStdDev` (`ddof = 1`, variance `5/2`). -/
theorem c2_counterexample :
    (estimate_statistic npMean bootciZero CI.sd 1000 P5).statistic
        = some (StatResult.flat [some (3 : ℝ)]) ∧
    (estimate_statistic npMean bootciZero CI.sd 1000 P5).confint
        = some (ConfResult.flat
            [some ((3 : ℝ) - Real.sqrt 2, (3 : ℝ) + Real.sqrt 2)]) ∧
    (estimate_statistic npMean bootciZero CI.sd 1000 P5).confint
        ≠ some (ConfResult.flat
            [some (npMean cells5 - sampleStd cells5,
                   npMean cells5 + sampleStd cells5)]) := by
  have hm : npMean cells5 = 3 := by
    have h : npMeanQ cells5 = 3 := by norm_num [npMeanQ, cells5]
    rw [npMean, h]; norm_num
  have hs : npStd cells5 = Real.sqrt 2 := by
    have h : popVarQ cells5 = 2 := by norm_num [popVarQ, npMeanQ, cells5]
    rw [npStd, h]; norm_num
  have hss : sampleStd cells5 = Real.sqrt (5 / 2) := by
    have h : sampleVarQ cells5 = 5 / 2 := by norm_num [sampleVarQ, npMeanQ, cells5]
    rw [sampleStd, h]; norm_num
  have hstat : (estimate_statistic npMean bootciZero CI.sd 1000 P5).statistic
      = some (StatResult.flat [some (npMean cells5)]) := rfl
  have hconf : (estimate_statistic npMean bootciZero CI.sd 1000 P5).confint
      = some (ConfResult.flat
          [some (npMean cells5 - npStd cells5, npMean cells5 + npStd cells5)]) := rfl
  refine ⟨?_, ?_, ?_⟩
  · rw [hstat, hm]
  · rw [hconf, hm, hs]
  · rw [hconf, hm, hs, hss]
    intro h
    injection h with h1
    injection h1 with h2
    injection h2 with h3 h4
    injection h3 with h5
    have h6 : (3 : ℝ) - Real.sqrt 2 = 3 - Real.sqrt (5 / 2) :=
      congrArg Prod.fst h5
    have h7 : Real.sqrt 2 = Real.sqrt (5 / 2) := by linarith
    rw [Real.sqrt_inj (by norm_num) (by norm_num)] at h7
    norm_num at h7

/-- Claim C2 (amended): for every group — and every group/hue cell — whose
filtered vector has at least two elements, the `"sd"` policy returns the
interval `(estimate − populationStdDev, estimate + populationStdDev)`, the
standard deviation being `np.std`'s default population one (`ddof = 0`); on
`[1,2,3,4,5]` with the mean estimator the estimate is `3` and the interval
is `3 ± √2`. -/
theorem c2_sd_band_amended :
    (∀ est bootci nboot gd ud, 2 ≤ (statDataNoHue gd ud).1.length →
      (groupStatNoHue est bootci CI.sd nboot gd ud).2
        = some (est (statDataNoHue gd ud).1 - npStd (statDataNoHue gd ud).1,
                est (statDataNoHue gd ud).1 + npStd (statDataNoHue gd ud).1)) ∧
    (∀ est bootci nboot gd hvec ud lvl, hvec ≠ [] →
      2 ≤ (hueStatData gd hvec ud lvl).1.length →
      (hueCellStat est bootci CI.sd nboot gd hvec ud lvl).2
        = some (est (hueStatData gd hvec ud lvl).1
                  - npStd (hueStatData gd hvec ud lvl).1,
                est (hueStatData gd hvec ud lvl).1
                  + npStd (hueStatData gd hvec ud lvl).1)) ∧
    ((estimate_statistic npMean bootciZero CI.sd 1000 P5).statistic
        = some (StatResult.flat [some (3 : ℝ)]) ∧
     (estimate_statistic npMean bootciZero CI.sd 1000 P5).confint
        = some (ConfResult.flat
            [some ((3 : ℝ) - npStd cells5, (3 : ℝ) + npStd cells5)]) ∧
     npStd cells5 = Real.sqrt 2) := by
  refine ⟨?_, ?_, ?_, ?_, ?_⟩
  · intro est bootci nboot gd ud h
    have hlt : ¬ (statDataNoHue gd ud).1.length < 2 := by omega
    simp [groupStatNoHue, hlt]
  · intro est bootci nboot gd hvec ud lvl hne h2
    have hv : ¬ hvec.length = 0 := by
      intro h0
      exact hne (List.length_eq_zero.mp h0)
    have hlt : ¬ (hueStatData gd hvec ud lvl).1.length < 2 := by omega
    simp [hueCellStat, hv, hlt]
  · have hm : npMean cells5 = 3 := by
      have h : npMeanQ cells5 = 3 := by norm_num [npMeanQ, cells5]
      rw [npMean, h]; norm_num
    have hstat : (estimate_statistic npMean bootciZero CI.sd 1000 P5).statistic
        = some (StatResult.flat [some (npMean cells5)]) := rfl
    rw [hstat, hm]
  · have hm : npMean cells5 = 3 := by
      have h : npMeanQ cells5 = 3 := by norm_num [npMeanQ, cells5]
      rw [npMean, h]; norm_num
    have hconf : (estimate_statistic npMean bootciZero CI.sd 1000 P5).confint
        = some (ConfResult.flat
            [some (npMean cells5 - npStd cells5, npMean cells5 + npStd cells5)]) := rfl
    rw [hconf, hm]
  · have h : popVarQ cells5 = 2 := by norm_num [popVarQ, npMeanQ, cells5]
    rw [npStd, h]; norm_num

/-- Claim C2 witness: the amended band theorem applied to the example group,
its size hypothesis discharged by evaluation. -/
theorem c2_witness :
    (groupStatNoHue npMean bootciZero CI.sd 5 cells5 Option.none).2
      = some (npMean (statDataNoHue cells5 Option.none).1
                - npStd (statDataNoHue cells5 Option.none).1,
              npMean (statDataNoHue cells5 Option.none).1
                + npStd (statDataNoHue cells5 Option.none).1) :=
  c2_sd_band_amended.1 npMean bootciZero 5 cells5 Option.none (by decide)

/-- `P0`: the `Plotter` produced by a wide-form call with `data=None`
(Example 4 of the spec: a single empty group). -/
def P0 : Plotter :=
  { orient := "v", plot_data := [[]],
    group_label := Option.none, value_label := Option.none,
    group_names := [Cell.num 0],
    plot_hues := Option.none, hue_title := Option.none,
    hue_names := Option.none, plot_units := Option.none,
    statistic := Option.none, confint := Option.none }

/-- Claim C7: `establish_variables` is deterministic — it reads no mutable,
global or random state, so two invocations on identical inputs yield the
same accepted `PlotSpec`, field for field. -/
theorem c7_deterministic (x y hue units : Var) (data : Data)
    (orient : Option String) (order hue_order : Option (List Cell))
    (p q : Plotter)
    (hp : establish_variables x y hue data orient order hue_order units
        = Except.ok p)
    (hq : establish_variables x y hue data orient order hue_order units
        = Except.ok q) :
    p.orient = q.orient ∧ p.group_names = q.group_names ∧
    p.plot_data = q.plot_data ∧ p.plot_hues = q.plot_hues ∧
    p.hue_names = q.hue_names ∧ p.plot_units = q.plot_units ∧
    p.value_label = q.value_label ∧ p.group_label = q.group_label ∧
    p.hue_title = q.hue_title := by
  rw [hp] at hq
  injection hq with h
  subst h
  exact ⟨rfl, rfl, rfl, rfl, rfl, rfl, rfl, rfl, rfl⟩

/-- Claim C7 witness: both invocations on the wide-form `data=None` input
evaluate to `P0`. -/
theorem c7_witness :
    P0.orient = P0.orient ∧ P0.group_names = P0.group_names ∧
    P0.plot_data = P0.plot_data ∧ P0.plot_hues = P0.plot_hues ∧
    P0.hue_names = P0.hue_names ∧ P0.plot_units = P0.plot_units ∧
    P0.value_label = P0.value_label ∧ P0.group_label = P0.group_label ∧
    P0.hue_title = P0.hue_title :=
  c7_deterministic Var.none Var.none Var.none Var.none Data.dnone
    Option.none Option.none Option.none P0 P0 rfl rfl

/-- `data.get(v, v)` never turns a `None` argument into a present one, nor
the reverse. -/
theorem resolveVar_eq_none (cols : List (String × Series)) (v : Var) :
    resolveVar cols v = Var.none ↔ v = Var.none := by
  cases v with
  | none => simp [resolveVar]
  | str s =>
    cases h : lookupCol cols s <;> simp [resolveVar, h]
  | ser s => simp [resolveVar]

/-- Resolution preserves presence of `x` and `y`. -/
theorem resolveStep_none (data : Data) (x y hue units rx ry rh ru : Var)
    (h : resolveStep data x y hue units = Except.ok (rx, ry, rh, ru)) :
    (rx = Var.none ↔ x = Var.none) ∧ (ry = Var.none ↔ y = Var.none) := by
  cases data <;> simp [resolveStep] at h
  case dnone =>
    obtain ⟨h1, h2, h3, h4⟩ := h
    rw [h1, h2]
    exact ⟨Iff.rfl, Iff.rfl⟩
  case frame cols cname =>
    obtain ⟨h1, h2, h3, h4⟩ := h
    rw [← h1, ← h2]
    exact ⟨resolveVar_eq_none cols x, resolveVar_eq_none cols y⟩

/-- Claim C10: with exactly one of `x`/`y` present, the accepted spec is the
single-ungrouped-vector mode — one data vector holding the present
variable's values in order, empty `groupNames`, and no hue, unit or group
metadata, so the data-vector count and group-name count differ. -/
theorem c10_single_variable_mode (x y hue units : Var) (data : Data)
    (orient : Option String) (order hue_order : Option (List Cell))
    (rx ry rh ru : Var) (p : Plotter)
    (hone : (x = Var.none ∧ y ≠ Var.none) ∨ (x ≠ Var.none ∧ y = Var.none))
    (hres : resolveStep data x y hue units = Except.ok (rx, ry, rh, ru))
    (hok : establish_variables x y hue data orient order hue_order units
        = Except.ok p) :
    p.group_names = [] ∧ p.plot_hues = Option.none ∧
    p.hue_names = Option.none ∧ p.plot_units = Option.none ∧
    p.group_label = Option.none ∧
    (∃ s : Series, varSeries (if rx = Var.none then ry else rx) = some s ∧
      p.plot_data = [s.vals] ∧ p.value_label = s.name) ∧
    p.plot_data.length ≠ p.group_names.length := by
  have hlong : ¬ (x = Var.none ∧ y = Var.none) := by
    rcases hone with ⟨h1, h2⟩ | ⟨h1, h2⟩
    · exact fun hc => h2 hc.2
    · exact fun hc => h1 hc.1
  rw [establish_variables, if_neg hlong,
    longForm_resolved x y hue units data orient order hue_order rx ry rh ru hres,
    longFormResolved] at hok
  cases hfs : firstStringVar [rx, ry, rh, ru] <;> simp only [hfs] at hok
  case some s => exact Except.noConfusion hok
  case none =>
  cases hio : infer_orient (varSeries rx) (varSeries ry) orient <;>
    simp only [hio] at hok
  case error e => exact Except.noConfusion hok
  case ok orient' =>
  obtain ⟨hn, hn2⟩ := resolveStep_none data x y hue units rx ry rh ru hres
  have hcond : rx = Var.none ∨ ry = Var.none := by
    rcases hone with ⟨h1, h2⟩ | ⟨h1, h2⟩
    · exact Or.inl (hn.mpr h1)
    · exact Or.inr (hn2.mpr h2)
  rw [if_pos hcond] at hok
  cases hvs : varSeries (if rx = Var.none then ry else rx) <;>
    simp only [hvs] at hok
  case none => exact Except.noConfusion hok
  case some s =>
  injection hok with hok
  subst hok
  refine ⟨rfl, rfl, rfl, rfl, rfl, ⟨s, rfl, rfl, rfl⟩, by simp [singleVarSpec]⟩

/-- Claim C10 witness: `x` absent, `y` a named two-element numeric series,
`data=None`. -/
theorem c10_witness :
    (singleVarSpec "v" ⟨some "vv", false, [Cell.num 1, Cell.num 2]⟩).group_names = [] ∧
    (singleVarSpec "v" ⟨some "vv", false, [Cell.num 1, Cell.num 2]⟩).plot_hues = Option.none ∧
    (singleVarSpec "v" ⟨some "vv", false, [Cell.num 1, Cell.num 2]⟩).hue_names = Option.none ∧
    (singleVarSpec "v" ⟨some "vv", false, [Cell.num 1, Cell.num 2]⟩).plot_units = Option.none ∧
    (singleVarSpec "v" ⟨some "vv", false, [Cell.num 1, Cell.num 2]⟩).group_label = Option.none ∧
    (∃ s : Series,
      varSeries (if (Var.none : Var) = Var.none
          then Var.ser ⟨some "vv", false, [Cell.num 1, Cell.num 2]⟩
          else Var.none) = some s ∧
      (singleVarSpec "v" ⟨some "vv", false, [Cell.num 1, Cell.num 2]⟩).plot_data = [s.vals] ∧
      (singleVarSpec "v" ⟨some "vv", false, [Cell.num 1, Cell.num 2]⟩).value_label = s.name) ∧
    (singleVarSpec "v" ⟨some "vv", false, [Cell.num 1, Cell.num 2]⟩).plot_data.length
      ≠ (singleVarSpec "v" ⟨some "vv", false, [Cell.num 1, Cell.num 2]⟩).group_names.length :=
  c10_single_variable_mode Var.none
    (Var.ser ⟨some "vv", false, [Cell.num 1, Cell.num 2]⟩) Var.none Var.none
    Data.dnone Option.none Option.none Option.none
    Var.none (Var.ser ⟨some "vv", false, [Cell.num 1, Cell.num 2]⟩)
    Var.none Var.none
    (singleVarSpec "v" ⟨some "vv", false, [Cell.num 1, Cell.num 2]⟩)
    (Or.inl ⟨rfl, fun h => Var.noConfusion h⟩) rfl rfl

/-- The validation loop finds no string exactly when none of the inputs is
one. -/
theorem firstStringVar_eq_none_iff (l : List Var) :
    firstStringVar l = Option.none ↔ ∀ v ∈ l, v.isStr = false := by
  induction l with
  | nil => simp [firstStringVar]
  | cons v rest ih =>
    cases v with
    | none => simp [firstStringVar, Var.isStr, ih]
    | str s => simp [firstStringVar, Var.isStr]
    | ser s => simp [firstStringVar, Var.isStr, ih]

/-- The only error `infer_orient` raises is the no-numeric-axis one. -/
theorem infer_orient_error (x y : Option Series) (o : Option String)
    (e : PlotError) (h : infer_orient x y o = Except.error e) :
    e = PlotError.noNumeric := by
  simp only [infer_orient] at h
  repeat' split at h
  all_goals
    first
      | exact Except.noConfusion h
      | (injection h with h1; exact h1.symm)

/-- Claim C8: in long-form mode with a resolvable `data` argument, the
"Could not interpret input" error is raised if and only if one of the four
resolved variables is still a bare string. -/
theorem c8_could_not_interpret_iff (x y hue units : Var) (data : Data)
    (orient : Option String) (order hue_order : Option (List Cell))
    (rx ry rh ru : Var)
    (hlong : ¬ (x = Var.none ∧ y = Var.none))
    (hres : resolveStep data x y hue units = Except.ok (rx, ry, rh, ru)) :
    (∃ s, establish_variables x y hue data orient order hue_order units
        = Except.error (PlotError.couldNotInterpret s))
      ↔ (rx.isStr = true ∨ ry.isStr = true ∨ rh.isStr = true ∨ ru.isStr = true) := by
  rw [establish_variables, if_neg hlong,
    longForm_resolved x y hue units data orient order hue_order rx ry rh ru hres,
    longFormResolved]
  cases hfs : firstStringVar [rx, ry, rh, ru]
  case some s =>
    simp only
    constructor
    · intro _
      by_contra hr
      simp only [not_or, Bool.not_eq_true] at hr
      have hall : firstStringVar [rx, ry, rh, ru] = Option.none :=
        (firstStringVar_eq_none_iff [rx, ry, rh, ru]).mpr (by
          intro v hv
          simp only [List.mem_cons, List.not_mem_nil, or_false] at hv
          rcases hv with rfl | rfl | rfl | rfl
          · exact hr.1
          · exact hr.2.1
          · exact hr.2.2.1
          · exact hr.2.2.2)
      rw [hall] at hfs
      exact Option.noConfusion hfs
    · intro _
      exact ⟨s, rfl⟩
  case none =>
    have hall := (firstStringVar_eq_none_iff [rx, ry, rh, ru]).mp hfs
    have h1 : rx.isStr = false := hall rx (by simp)
    have h2 : ry.isStr = false := hall ry (by simp)
    have h3 : rh.isStr = false := hall rh (by simp)
    have h4 : ru.isStr = false := hall ru (by simp)
    simp only [h1, h2, h3, h4, Bool.false_eq_true, or_self, iff_false]
    rintro ⟨s, hs⟩
    cases hio : infer_orient (varSeries rx) (varSeries ry) orient <;>
      simp only [hio] at hs
    case error e =>
      have he := infer_orient_error (varSeries rx) (varSeries ry) orient e hio
      rw [he] at hs
      injection hs with h5
      exact PlotError.noConfusion h5
    case ok orient' =>
      by_cases hc : rx = Var.none ∨ ry = Var.none
      · rw [if_pos hc] at hs
        cases hvs : varSeries (if rx = Var.none then ry else rx) <;>
          simp only [hvs] at hs
        · injection hs with h5
          exact PlotError.noConfusion h5
        · exact Except.noConfusion hs
      · rw [if_neg hc] at hs
        cases hx : varSeries rx <;> cases hy : varSeries ry <;>
          simp only [hx, hy] at hs
        · injection hs with h5
          exact PlotError.noConfusion h5
        · injection hs with h5
          exact PlotError.noConfusion h5
        · injection hs with h5
          exact PlotError.noConfusion h5
        · exact Except.noConfusion hs

/-- Claim C8 witness: an unresolvable string `x` next to a series `y` with
`data=None` raises the could-not-interpret error; the iff instance holds at
these concrete resolved values. -/
theorem c8_witness :
    (∃ s, establish_variables (Var.str "colx")
        (Var.ser ⟨Option.none, false, [Cell.num 1]⟩) Var.none Data.dnone
        Option.none Option.none Option.none Var.none
        = Except.error (PlotError.couldNotInterpret s))
      ↔ ((Var.str "colx").isStr = true ∨
         (Var.ser ⟨Option.none, false, [Cell.num 1]⟩).isStr = true ∨
         (Var.none : Var).isStr = true ∨ (Var.none : Var).isStr = true) :=
  c8_could_not_interpret_iff (Var.str "colx")
    (Var.ser ⟨Option.none, false, [Cell.num 1]⟩) Var.none Var.none Data.dnone
    Option.none Option.none Option.none
    (Var.str "colx") (Var.ser ⟨Option.none, false, [Cell.num 1]⟩)
    Var.none Var.none
    (fun h => Var.noConfusion h.1) rfl

/-- `data[order]` yields exactly one column per order entry. -/
theorem selectCols_ok_length (cols : List (String × Series)) :
    ∀ (ord : List Cell) (vecs : List (List Cell)),
      selectCols cols ord = Except.ok vecs → vecs.length = ord.length := by
  intro ord
  induction ord with
  | nil =>
    intro vecs h
    simp only [selectCols] at h
    injection h with h1
    rw [← h1]
    rfl
  | cons c rest ih =>
    intro vecs h
    cases c with
    | num q =>
      simp only [selectCols] at h
      exact Except.noConfusion h
    | na =>
      simp only [selectCols] at h
      exact Except.noConfusion h
    | str nm =>
      simp only [selectCols] at h
      cases hl : lookupCol cols nm <;> simp only [hl] at h
      · exact Except.noConfusion h
      · cases hrec : selectCols cols rest <;> simp only [hrec] at h
        · exact Except.noConfusion h
        · injection h with h1
          rw [← h1]
          simp [ih _ hrec]

/-- A successful `np.float` conversion pass returns the vectors unchanged
and certifies each one castable. -/
theorem castAll_ok : ∀ (vs ws : List (List Cell)), castAll vs = Except.ok ws →
    ws = vs ∧ ∀ v ∈ vs, castable v = true := by
  intro vs
  induction vs with
  | nil =>
    intro ws h
    simp only [castAll] at h
    injection h with h1
    exact ⟨h1.symm, by simp⟩
  | cons v rest ih =>
    intro ws h
    simp only [castAll] at h
    by_cases hc : castable v = true
    · have hA : asFloatVec v = Except.ok v := by simp [asFloatVec, hc]
      simp only [hA] at h
      cases hrec : castAll rest <;> simp only [hrec] at h
      · exact Except.noConfusion h
      · injection h with h1
        obtain ⟨he, hall⟩ := ih _ hrec
        constructor
        · rw [← h1, he]
        · intro w hw
          rcases List.mem_cons.mp hw with hw1 | hw2
          · rw [hw1]; exact hc
          · exact hall w hw2
    · have hA : asFloatVec v = Except.error PlotError.castError := by
        simp [asFloatVec, hc]
      simp only [hA] at h
      exact Except.noConfusion h

/-- A castable vector has no bare-string entry. -/
theorem castable_all (v : List Cell) (h : castable v = true) :
    ∀ c ∈ v, c.isStr = false := by
  intro c hc
  have h2 : v.any Cell.isStr = false := by
    simpa [castable] using h
  rw [List.any_eq_false] at h2
  exact Bool.eq_false_iff.mpr (h2 c hc)

/-- Claim C6: an accepted wide-form labeled-table input yields exactly one
data vector per group name, every emitted vector is free of bare-string
values, and with no caller order the selected group names are exactly the
numeric-castable columns in table order. -/
theorem wideFrame_ok (cols : List (String × Series)) (cname : Option String)
    (orient : Option String) (ord : List Cell) (p : Plotter)
    (h : wideFrame cols cname orient ord = Except.ok p) :
    p.group_names = ord ∧ p.plot_data.length = ord.length ∧
    (∀ v ∈ p.plot_data, castable v = true) := by
  rw [wideFrame] at h
  cases hsel : selectCols cols ord <;> simp only [hsel] at h
  · exact Except.noConfusion h
  case ok vecs =>
  cases hca : castAll vecs <;> simp only [hca] at h
  · exact Except.noConfusion h
  case ok pds =>
  injection h with h1
  subst h1
  obtain ⟨he, hall⟩ := castAll_ok vecs pds hca
  refine ⟨rfl, ?_, ?_⟩
  · show pds.length = ord.length
    rw [he, selectCols_ok_length cols ord vecs hsel]
  · show ∀ v ∈ pds, castable v = true
    intro v hv
    rw [he] at hv
    exact hall v hv

/-- Claim C6: an accepted wide-form labeled-table input yields exactly one
data vector per group name, every emitted vector is free of bare-string
values, and with no caller order the selected group names are exactly the
numeric-castable columns in table order. -/
theorem c6_wide_frame_numeric (cols : List (String × Series))
    (cname : Option String) (hue units : Var) (orient : Option String)
    (order hue_order : Option (List Cell)) (p : Plotter)
    (hok : establish_variables Var.none Var.none hue (Data.frame cols cname)
        orient order hue_order units = Except.ok p) :
    p.plot_data.length = p.group_names.length ∧
    (∀ v ∈ p.plot_data, ∀ c ∈ v, c.isStr = false) ∧
    (order = Option.none →
      p.group_names
        = (cols.filter (fun q => castable q.2.vals)).map (fun q => Cell.str q.1)) := by
  rw [establish_variables, if_pos ⟨rfl, rfl⟩, wideForm] at hok
  by_cases hh : hue = Var.none
  · rw [if_neg (fun hne => hne hh)] at hok
    obtain ⟨hgn, hlen, hcast⟩ :=
      wideFrame_ok cols cname orient (wideOrd cols order) p hok
    refine ⟨?_, ?_, ?_⟩
    · rw [hgn, hlen]
    · intro v hv c hc
      exact castable_all v (hcast v hv) c hc
    · intro ho
      subst ho
      rw [hgn]
      rfl
  · rw [if_pos hh] at hok
    exact Except.noConfusion hok

/-- A resolved variable seen as a series is that series. -/
theorem varSeries_some (v : Var) (s : Series) (h : varSeries v = some s) :
    v = Var.ser s := by
  cases v <;> simp [varSeries] at h
  rw [h]

/-- A wide-form frame result carries no hue and no unit vectors. -/
theorem wideFrame_fields (cols : List (String × Series)) (cname : Option String)
    (orient : Option String) (ord : List Cell) (p : Plotter)
    (h : wideFrame cols cname orient ord = Except.ok p) :
    p.plot_hues = Option.none ∧ p.plot_units = Option.none := by
  rw [wideFrame] at h
  cases hsel : selectCols cols ord <;> simp only [hsel] at h
  · exact Except.noConfusion h
  case ok vecs =>
  cases hca : castAll vecs <;> simp only [hca] at h
  · exact Except.noConfusion h
  case ok pds =>
  injection h with h1
  subst h1
  exact ⟨rfl, rfl⟩

/-- A wide-form array result carries no hue and no unit vectors. -/
theorem wideArrays_fields (data : Data) (orient : Option String)
    (order : Option (List Cell)) (p : Plotter)
    (h : wideArrays data orient order = Except.ok p) :
    p.plot_hues = Option.none ∧ p.plot_units = Option.none := by
  rw [wideArrays] at h
  by_cases ho : order = Option.none
  · rw [if_neg (fun hne => hne ho)] at h
    cases hw : wideArrayData data <;> simp only [hw] at h
    · exact Except.noConfusion h
    · rename_i raw
      cases hc : castAll raw <;> simp only [hc] at h
      · exact Except.noConfusion h
      · injection h with h1
        subst h1
        exact ⟨rfl, rfl⟩
  · rw [if_pos ho] at h
    exact Except.noConfusion h

/-- The length of the kept-rows list is the number of matching keys. -/
theorem filterMap_if_length (l : List (Cell × Cell)) (a : Cell) :
    (l.filterMap (fun p => if p.2 = a then some p.1 else none)).length
      = l.countP (fun p => decide (p.2 = a)) := by
  induction l with
  | nil => rfl
  | cons hd tl ih =>
    by_cases hp : hd.2 = a <;>
      simp [List.filterMap_cons, List.countP_cons, hp, ih]

/-- `matchRows` keeps one row per matching key of the zipped rows. -/
theorem matchRows_length (v g : List Cell) (a : Cell) :
    (matchRows v g a).length = (v.zip g).countP (fun p => decide (p.2 = a)) :=
  filterMap_if_length (v.zip g) a

/-- Counting over the keys of fully zipped rows is counting over the
grouper. -/
theorem countP_zip_snd (v : List Cell) (pr : Cell → Bool) :
    ∀ (g : List Cell), v.length = g.length →
      (v.zip g).countP (fun p => pr p.2) = g.countP pr := by
  induction v with
  | nil =>
    intro g h
    cases g with
    | nil => rfl
    | cons gh gt => simp at h
  | cons vh vt ih =>
    intro g h
    cases g with
    | nil => simp at h
    | cons gh gt =>
      simp only [List.zip_cons_cons, List.countP_cons]
      rw [ih gt (by simpa using h)]

/-- The `i`-th emitted group of `_group_longform`. -/
theorem group_longform_entry (v g : List Cell) (gn : List Cell)
    (nm : Option String) (i : ℕ)
    (h : i < (group_longform v g gn nm).1.length) (h2 : i < gn.length) :
    (group_longform v g gn nm).1.get ⟨i, h⟩
      = if gn.get ⟨i, h2⟩ = Cell.na then []
        else matchRows v g (gn.get ⟨i, h2⟩) := by
  simp only [group_longform, List.get_eq_getElem, List.getElem_map]

/-- The fields of the grouped long-form spec, spelled out. -/
theorem groupedSpec_eq (orient' : String) (sx sy : Series) (rh ru : Var)
    (order hue_order : Option (List Cell)) :
    groupedSpec orient' sx sy rh ru order hue_order
      = { orient := orient',
          plot_data := (group_longform (if orient' = "v" then sy else sx).vals
            (if orient' = "v" then sx else sy).vals
            (categorical_order (if orient' = "v" then sx else sy).vals order)
            (if orient' = "v" then sy else sx).name).1,
          group_label := (if orient' = "v" then sx else sy).name,
          value_label := (if orient' = "v" then sy else sx).name,
          group_names := categorical_order (if orient' = "v" then sx else sy).vals order,
          plot_hues := match rh with
            | Var.ser sh => some (group_longform sh.vals
                (if orient' = "v" then sx else sy).vals
                (categorical_order (if orient' = "v" then sx else sy).vals order)
                sh.name).1
            | _ => Option.none,
          hue_title := match rh with
            | Var.ser sh => sh.name
            | _ => Option.none,
          hue_names := match rh with
            | Var.ser sh => some (categorical_order sh.vals hue_order)
            | _ => Option.none,
          plot_units := match ru with
            | Var.ser su => some (group_longform su.vals
                (if orient' = "v" then sx else sy).vals
                (categorical_order (if orient' = "v" then sx else sy).vals order)
                su.name).1
            | _ => Option.none,
          statistic := Option.none, confint := Option.none } := by
  cases rh <;> cases ru <;> with_unfolding_all rfl

/-- One-equation unfolding of `wideForm`. -/
theorem wideForm_eq (hue : Var) (data : Data) (orient : Option String)
    (order : Option (List Cell)) :
    wideForm hue data orient order
      = if hue ≠ Var.none then Except.error PlotError.hueWithoutXY
        else
          match data with
          | Data.frame cols cname => wideFrame cols cname orient (wideOrd cols order)
          | d => wideArrays d orient order := by
  cases data <;> with_unfolding_all rfl

/-- `countP_zip_snd` at an equality test, in rewrite-friendly form. -/
theorem countP_zip_snd_eq (v g : List Cell) (a : Cell) (h : v.length = g.length) :
    (v.zip g).countP (fun p => decide (p.2 = a))
      = g.countP (fun c => decide (c = a)) :=
  countP_zip_snd v (fun c => decide (c = a)) g h

/-- Claim C5: on any accepted input whose variable vectors are aligned (the
library rejects misaligned grouping vectors), `plotHues` and `plotUnits`,
when present, have exactly as many groups as `plotData`, and each group's
hue/unit vector has exactly as many elements as that group's data vector. -/
theorem c5_parallel_invariant (x y hue units : Var) (data : Data)
    (orient : Option String) (order hue_order : Option (List Cell))
    (rx ry rh ru : Var) (p : Plotter)
    (hres : resolveStep data x y hue units = Except.ok (rx, ry, rh, ru))
    (halign : ∀ s t : Series, Var.ser s ∈ [rx, ry, rh, ru] →
        Var.ser t ∈ [rx, ry, rh, ru] → s.vals.length = t.vals.length)
    (hok : establish_variables x y hue data orient order hue_order units
        = Except.ok p) :
    (∀ hs, p.plot_hues = some hs → hs.length = p.plot_data.length ∧
      ∀ i (h1 : i < hs.length) (h2 : i < p.plot_data.length),
        (hs.get ⟨i, h1⟩).length = (p.plot_data.get ⟨i, h2⟩).length) ∧
    (∀ us, p.plot_units = some us → us.length = p.plot_data.length ∧
      ∀ i (h1 : i < us.length) (h2 : i < p.plot_data.length),
        (us.get ⟨i, h1⟩).length = (p.plot_data.get ⟨i, h2⟩).length) := by
  by_cases hw : x = Var.none ∧ y = Var.none
  · rw [establish_variables, if_pos hw, wideForm_eq] at hok
    by_cases hh : hue = Var.none
    · rw [if_neg (fun hne => hne hh)] at hok
      have hfields : p.plot_hues = Option.none ∧ p.plot_units = Option.none := by
        cases data
        · exact wideArrays_fields _ orient order p hok
        · exact wideFrame_fields _ _ orient (wideOrd _ order) p hok
        · exact wideArrays_fields _ orient order p hok
        · exact wideArrays_fields _ orient order p hok
        · exact wideArrays_fields _ orient order p hok
        · exact wideArrays_fields _ orient order p hok
        · exact wideArrays_fields _ orient order p hok
      obtain ⟨hph, hpu⟩ := hfields
      constructor
      · intro hs hhs
        rw [hph] at hhs
        exact Option.noConfusion hhs
      · intro us hus
        rw [hpu] at hus
        exact Option.noConfusion hus
    · rw [if_pos hh] at hok
      exact Except.noConfusion hok
  · rw [establish_variables, if_neg hw,
      longForm_resolved x y hue units data orient order hue_order rx ry rh ru hres,
      longFormResolved] at hok
    cases hfs : firstStringVar [rx, ry, rh, ru] <;> simp only [hfs] at hok
    · cases hio : infer_orient (varSeries rx) (varSeries ry) orient <;>
        simp only [hio] at hok
      · exact Except.noConfusion hok
      · rename_i orient'
        by_cases hc : rx = Var.none ∨ ry = Var.none
        · rw [if_pos hc] at hok
          cases hvs : varSeries (if rx = Var.none then ry else rx) <;>
            simp only [hvs] at hok
          · exact Except.noConfusion hok
          · injection hok with hok
            subst hok
            exact ⟨fun hs hhs => Option.noConfusion hhs,
                   fun us hus => Option.noConfusion hus⟩
        · rw [if_neg hc] at hok
          cases hx : varSeries rx <;> cases hy : varSeries ry <;>
            simp only [hx, hy] at hok
          · exact Except.noConfusion hok
          · exact Except.noConfusion hok
          · exact Except.noConfusion hok
          · rename_i sx sy
            injection hok with hok
            subst hok
            have hrx := varSeries_some rx sx hx
            have hry := varSeries_some ry sy hy
            have hmemx : Var.ser sx ∈ [rx, ry, rh, ru] := by
              rw [hrx]
              exact List.mem_cons_self _ _
            have hmemy : Var.ser sy ∈ [rx, ry, rh, ru] := by
              rw [hry]
              exact List.mem_cons_of_mem _ (List.mem_cons_self _ _)
            have hG : ∀ s : Series, Var.ser s ∈ [rx, ry, rh, ru] →
                s.vals.length = (if orient' = "v" then sx else sy).vals.length := by
              intro s hsmem
              by_cases hv : orient' = "v"
              · rw [if_pos hv]
                exact halign s sx hsmem hmemx
              · rw [if_neg hv]
                exact halign s sy hsmem hmemy
            have hmemv : Var.ser (if orient' = "v" then sy else sx)
                ∈ [rx, ry, rh, ru] := by
              by_cases hv : orient' = "v"
              · rw [if_pos hv]
                exact hmemy
              · rw [if_neg hv]
                exact hmemx
            rw [groupedSpec_eq]
            constructor
            · intro hs hhs
              cases rh with
              | none => exact Option.noConfusion hhs
              | str s2 => exact Option.noConfusion hhs
              | ser sh =>
                have hmemh : Var.ser sh ∈ [rx, ry, Var.ser sh, ru] := by simp
                injection hhs with hhs
                subst hhs
                refine ⟨by simp [group_longform], ?_⟩
                intro i h1 h2
                have hgl : i < (categorical_order
                    (if orient' = "v" then sx else sy).vals order).length := by
                  simpa [group_longform] using h2
                rw [group_longform_entry _ _ _ _ i h1 hgl,
                    group_longform_entry _ _ _ _ i h2 hgl]
                by_cases hna : (categorical_order
                    (if orient' = "v" then sx else sy).vals order).get ⟨i, hgl⟩
                      = Cell.na
                · rw [if_pos hna, if_pos hna]
                · rw [if_neg hna, if_neg hna, matchRows_length, matchRows_length,
                    countP_zip_snd_eq _ _ _ (hG sh hmemh),
                    countP_zip_snd_eq _ _ _ (hG _ hmemv)]
            · intro us hus
              cases ru with
              | none => exact Option.noConfusion hus
              | str s2 => exact Option.noConfusion hus
              | ser su =>
                have hmemu : Var.ser su ∈ [rx, ry, rh, Var.ser su] := by simp
                injection hus with hus
                subst hus
                refine ⟨by simp [group_longform], ?_⟩
                intro i h1 h2
                have hgl : i < (categorical_order
                    (if orient' = "v" then sx else sy).vals order).length := by
                  simpa [group_longform] using h2
                rw [group_longform_entry _ _ _ _ i h1 hgl,
                    group_longform_entry _ _ _ _ i h2 hgl]
                by_cases hna : (categorical_order
                    (if orient' = "v" then sx else sy).vals order).get ⟨i, hgl⟩
                      = Cell.na
                · rw [if_pos hna, if_pos hna]
                · rw [if_neg hna, if_neg hna, matchRows_length, matchRows_length,
                    countP_zip_snd_eq _ _ _ (hG su hmemu),
                    countP_zip_snd_eq _ _ _ (hG _ hmemv)]
    · exact Except.noConfusion hok

/-- The example wide-form table: a numeric column and a string column. -/
def colsW : List (String × Series) :=
  [("A", ⟨Option.none, false, [Cell.num 1, Cell.num 2]⟩),
   ("B", ⟨Option.none, false, [Cell.str "x"]⟩)]

/-- The `Plotter` the wide-form example normalizes to. -/
def PW : Plotter :=
  { orient := "v", plot_data := [[Cell.num 1, Cell.num 2]],
    group_label := Option.none, value_label := Option.none,
    group_names := [Cell.str "A"],
    plot_hues := Option.none, hue_title := Option.none,
    hue_names := Option.none, plot_units := Option.none,
    statistic := Option.none, confint := Option.none }

/-- Claim C6 witness: the numeric column is kept, the string column is
excluded from selection. -/
theorem c6_witness :
    PW.plot_data.length = PW.group_names.length ∧
    (∀ v ∈ PW.plot_data, ∀ c ∈ v, c.isStr = false) ∧
    ((Option.none : Option (List Cell)) = Option.none →
      PW.group_names
        = (colsW.filter (fun q => castable q.2.vals)).map (fun q => Cell.str q.1)) :=
  c6_wide_frame_numeric colsW Option.none Var.none Var.none Option.none
    Option.none Option.none PW rfl

/-- The grouped long-form example with hue and units: three aligned
three-element series. -/
def PG : Plotter :=
  groupedSpec "v" ⟨some "g", false, [Cell.str "a", Cell.str "a", Cell.str "b"]⟩
    ⟨some "v", false, [Cell.num 1, Cell.num 2, Cell.num 3]⟩
    (Var.ser ⟨some "h", false, [Cell.str "u", Cell.str "w", Cell.str "u"]⟩)
    (Var.ser ⟨some "t", false, [Cell.num 0, Cell.num 0, Cell.num 1]⟩)
    Option.none Option.none

/-- Claim C5 witness: a long-form call with aligned value, group, hue and
unit series. -/
theorem c5_witness :
    (∀ hs, PG.plot_hues = some hs → hs.length = PG.plot_data.length ∧
      ∀ i (h1 : i < hs.length) (h2 : i < PG.plot_data.length),
        (hs.get ⟨i, h1⟩).length = (PG.plot_data.get ⟨i, h2⟩).length) ∧
    (∀ us, PG.plot_units = some us → us.length = PG.plot_data.length ∧
      ∀ i (h1 : i < us.length) (h2 : i < PG.plot_data.length),
        (us.get ⟨i, h1⟩).length = (PG.plot_data.get ⟨i, h2⟩).length) :=
  c5_parallel_invariant
    (Var.ser ⟨some "g", false, [Cell.str "a", Cell.str "a", Cell.str "b"]⟩)
    (Var.ser ⟨some "v", false, [Cell.num 1, Cell.num 2, Cell.num 3]⟩)
    (Var.ser ⟨some "h", false, [Cell.str "u", Cell.str "w", Cell.str "u"]⟩)
    (Var.ser ⟨some "t", false, [Cell.num 0, Cell.num 0, Cell.num 1]⟩)
    Data.dnone Option.none Option.none Option.none
    (Var.ser ⟨some "g", false, [Cell.str "a", Cell.str "a", Cell.str "b"]⟩)
    (Var.ser ⟨some "v", false, [Cell.num 1, Cell.num 2, Cell.num 3]⟩)
    (Var.ser ⟨some "h", false, [Cell.str "u", Cell.str "w", Cell.str "u"]⟩)
    (Var.ser ⟨some "t", false, [Cell.num 0, Cell.num 0, Cell.num 1]⟩)
    PG rfl
    (by
      intro s t hs ht
      simp only [List.mem_cons, List.not_mem_nil, or_false] at hs ht
      rcases hs with hs | hs | hs | hs <;> rcases ht with ht | ht | ht | ht <;>
        (injection hs with hs1
         injection ht with ht1
         subst hs1
         subst ht1
         rfl))
    rfl

/-- Matched rows are a sublist of the values, preserving original order. -/
theorem matchRows_sublist (v : List Cell) (a : Cell) :
    ∀ (g : List Cell), (matchRows v g a).Sublist v := by
  induction v with
  | nil =>
    intro g
    simp [matchRows]
  | cons vh vt ih =>
    intro g
    cases g with
    | nil => simp [matchRows]
    | cons gh gt =>
      rw [matchRows, List.zip_cons_cons, List.filterMap_cons]
      by_cases hp : gh = a
      · rw [if_pos hp]
        exact List.Sublist.cons₂ _ (ih gt)
      · rw [if_neg hp]
        exact List.Sublist.cons _ (ih gt)

/-- A key that never occurs in the grouper matches no rows. -/
theorem matchRows_eq_nil (v g : List Cell) (a : Cell) (h : a ∉ g) :
    matchRows v g a = [] := by
  rw [matchRows, List.filterMap_eq_nil_iff]
  intro p hp
  have hmem : p.2 ∈ g := (List.of_mem_zip hp).2
  have hne : ¬ (p.2 = a) := fun he => h (he ▸ hmem)
  rw [if_neg hne]

/-- Splitting the membership count at the head of a duplicate-free order. -/
theorem countP_mem_cons (rows : List (Cell × Cell)) (a : Cell) (l : List Cell)
    (ha : a ∉ l) :
    rows.countP (fun p => decide (p.2 ∈ a :: l))
      = rows.countP (fun p => decide (p.2 = a))
        + rows.countP (fun p => decide (p.2 ∈ l)) := by
  induction rows with
  | nil => rfl
  | cons r rs ih =>
    rw [List.countP_cons, List.countP_cons, List.countP_cons, ih]
    by_cases hr : r.2 = a
    · have hnl : ¬ r.2 ∈ l := fun hm => ha (hr ▸ hm)
      simp [List.mem_cons, hr, hnl, ha]
      try omega
    · by_cases hrl : r.2 ∈ l
      · simp [List.mem_cons, hr, hrl]
        try omega
      · simp [List.mem_cons, hr, hrl]
        try omega

/-- Summing per-group match counts over a duplicate-free order counts every
row whose key is in the order exactly once. -/
theorem sum_countP_nodup (rows : List (Cell × Cell)) :
    ∀ (gn : List Cell), gn.Nodup →
      (gn.map (fun a => rows.countP (fun p => decide (p.2 = a)))).sum
        = rows.countP (fun p => decide (p.2 ∈ gn)) := by
  intro gn
  induction gn with
  | nil =>
    intro _
    simp
  | cons a l ih =>
    intro hnd
    rw [List.nodup_cons] at hnd
    rw [List.map_cons, List.sum_cons, ih hnd.2, countP_mem_cons rows a l hnd.1]

/-- Claim C1: with both variables present, `_group_longform` partitions the
value vector into exactly one sub-vector per (distinct, non-null) entry of
the group order, in order-entry order; each sub-vector is the matching rows
in their original order (hence a sublist of the values); summed over the
order, the sub-vector sizes count every row whose key is in the order
exactly once; and an order entry with no matching rows yields an empty
vector. -/
theorem c1_group_longform_partition (vals groups : List Cell)
    (order : Option (List Cell)) (nm : Option String)
    (gn : List Cell) (res : List (List Cell))
    (hgn : gn = categorical_order groups order)
    (hres : res = (group_longform vals groups gn nm).1)
    (hlen : vals.length = groups.length)
    (hnodup : gn.Nodup)
    (hna : Cell.na ∉ gn) :
    res.length = gn.length ∧
    (∀ i (h1 : i < res.length) (h2 : i < gn.length),
      res.get ⟨i, h1⟩ = matchRows vals groups (gn.get ⟨i, h2⟩)) ∧
    (∀ i (h1 : i < res.length), (res.get ⟨i, h1⟩).Sublist vals) ∧
    ((res.map List.length).sum = groups.countP (fun c => decide (c ∈ gn))) ∧
    (∀ i (h1 : i < res.length) (h2 : i < gn.length),
      gn.get ⟨i, h2⟩ ∉ groups → res.get ⟨i, h1⟩ = []) := by
  subst hres
  refine ⟨by simp [group_longform], ?_, ?_, ?_, ?_⟩
  · intro i h1 h2
    rw [group_longform_entry _ _ _ _ i h1 h2,
      if_neg (fun (he : gn.get ⟨i, h2⟩ = Cell.na) =>
        hna (he ▸ List.get_mem gn i h2))]
  · intro i h1
    have h2 : i < gn.length := by simpa [group_longform] using h1
    rw [group_longform_entry _ _ _ _ i h1 h2]
    by_cases hc : gn.get ⟨i, h2⟩ = Cell.na
    · rw [if_pos hc]
      exact List.nil_sublist vals
    · rw [if_neg hc]
      exact matchRows_sublist vals _ groups
  · have hmap : (group_longform vals groups gn nm).1.map List.length
        = gn.map (fun a => (vals.zip groups).countP (fun p => decide (p.2 = a))) := by
      simp only [group_longform, List.map_map]
      refine List.map_congr_left ?_
      intro a ha
      simp only [Function.comp]
      rw [if_neg (fun (he : a = Cell.na) => hna (he ▸ ha))]
      exact matchRows_length vals groups a
    rw [hmap, sum_countP_nodup (vals.zip groups) gn hnodup]
    exact countP_zip_snd vals (fun c => decide (c ∈ gn)) groups hlen
  · intro i h1 h2 hni
    rw [group_longform_entry _ _ _ _ i h1 h2]
    by_cases hc : gn.get ⟨i, h2⟩ = Cell.na
    · rw [if_pos hc]
    · rw [if_neg hc]
      exact matchRows_eq_nil vals groups _ hni

/-- Claim C1 witness: values `[1,2,3]` grouped by `["a","a","b"]` with the
inferred order `["a","b"]` partition into `[[1,2],[3]]`. -/
theorem c1_witness :
    ([[Cell.num 1, Cell.num 2], [Cell.num 3]] : List (List Cell)).length
        = ([Cell.str "a", Cell.str "b"] : List Cell).length ∧
    (∀ i (h1 : i < ([[Cell.num 1, Cell.num 2], [Cell.num 3]] : List (List Cell)).length)
        (h2 : i < ([Cell.str "a", Cell.str "b"] : List Cell).length),
      ([[Cell.num 1, Cell.num 2], [Cell.num 3]] : List (List Cell)).get ⟨i, h1⟩
        = matchRows [Cell.num 1, Cell.num 2, Cell.num 3]
            [Cell.str "a", Cell.str "a", Cell.str "b"]
            (([Cell.str "a", Cell.str "b"] : List Cell).get ⟨i, h2⟩)) ∧
    (∀ i (h1 : i < ([[Cell.num 1, Cell.num 2], [Cell.num 3]] : List (List Cell)).length),
      (([[Cell.num 1, Cell.num 2], [Cell.num 3]] : List (List Cell)).get
          ⟨i, h1⟩).Sublist [Cell.num 1, Cell.num 2, Cell.num 3]) ∧
    ((([[Cell.num 1, Cell.num 2], [Cell.num 3]] : List (List Cell)).map
        List.length).sum
      = ([Cell.str "a", Cell.str "a", Cell.str "b"] : List Cell).countP
          (fun c => decide (c ∈ ([Cell.str "a", Cell.str "b"] : List Cell)))) ∧
    (∀ i (h1 : i < ([[Cell.num 1, Cell.num 2], [Cell.num 3]] : List (List Cell)).length)
        (h2 : i < ([Cell.str "a", Cell.str "b"] : List Cell).length),
      ([Cell.str "a", Cell.str "b"] : List Cell).get ⟨i, h2⟩
          ∉ ([Cell.str "a", Cell.str "a", Cell.str "b"] : List Cell) →
      ([[Cell.num 1, Cell.num 2], [Cell.num 3]] : List (List Cell)).get ⟨i, h1⟩
        = []) :=
  c1_group_longform_partition [Cell.num 1, Cell.num 2, Cell.num 3]
    [Cell.str "a", Cell.str "a", Cell.str "b"] Option.none Option.none
    [Cell.str "a", Cell.str "b"] [[Cell.num 1, Cell.num 2], [Cell.num 3]]
    rfl rfl rfl (by decide) (by decide)
